import Mathlib

/-!
Verification of the MIB2ZABBIXPY repository (mib2zabbix-py.py and
mib2template.py) against its natural-language specification.

The Python code is shallowly embedded: Python strings are Lean `String`s,
and the Python string operations used by the code (`split`, `strip`,
`upper`, `replace`, `endswith`, the `in` operator, `join`, slicing off the
last character) are given executable, structurally recursive Lean models
below.  Where the originals take a separator argument the models use a
fuel argument equal to the input length so that they are structural and
compute inside the kernel; the fuel is always sufficient because one
character at least is consumed per step.

Calls to the external SNMP tool chain (`snmptranslate`, `snmpwalk`) are
modelled as function parameters: `getInfo` stands for
`MIBProcessor.get_mib_info` (its result triple `(full_name, description,
formatted_oid)`), and the walk output is passed in as a list of raw lines.
The per-element `uuid.uuid4()` values are modelled by a supply
`uu : Nat → String` indexed in call order, as the spec treats identifiers
as write-only metadata.
-/

/-- Model of the ASCII whitespace stripped by Python `str.strip()`. -/
def isSpaceChar (c : Char) : Bool := c == ' ' || c == '\t' || c == '\n' || c == '\r'

/-- Uppercase one character, as Python `str.upper()` does on ASCII input. -/
def charUp (c : Char) : Char :=
  if 97 ≤ c.toNat ∧ c.toNat ≤ 122 then Char.ofNat (c.toNat - 32) else c

/-- Model of Python `s.upper()` (ASCII). -/
def pyUpper (s : String) : String := ⟨s.data.map charUp⟩

/-- Model of Python `s.strip()`: drop leading and trailing whitespace. -/
def pyStrip (s : String) : String :=
  ⟨((s.data.dropWhile isSpaceChar).reverse.dropWhile isSpaceChar).reverse⟩

/-- Fuel-driven worker for `pySplit`; splits at every non-overlapping
leftmost occurrence of `sep`, like Python `str.split(sep)`. -/
def pySplitAux (sep : List Char) : Nat → List Char → List (List Char)
  | _, [] => [[]]
  | 0, hay => [hay]
  | fuel+1, a :: t =>
    if sep.isPrefixOf (a :: t) then
      [] :: pySplitAux sep fuel (List.drop (sep.length - 1) t)
    else
      match pySplitAux sep fuel t with
      | [] => [[a]]
      | s :: rest => (a :: s) :: rest

/-- Model of Python `s.split(sep)` for a non-empty separator. -/
def pySplit (s sep : String) : List String :=
  if sep.data = [] then [s]
  else (pySplitAux sep.data s.data.length s.data).map fun l => ⟨l⟩

/-- Concatenation of a list of strings with a separator between entries,
modelling Python `sep.join(parts)`. -/
def joinDot (sep : String) : List String → String
  | [] => ""
  | [a] => a
  | a :: b :: r => a ++ sep ++ joinDot sep (b :: r)

/-- Model of Python `s.split(sep, 1)`: at most one split, at the first
occurrence of the separator. -/
def pySplit1 (s sep : String) : List String :=
  match pySplit s sep with
  | [] => [s]
  | [x] => [x]
  | x :: rest => [x, joinDot sep rest]

/-- Fuel-driven worker for `pyReplace`. -/
def pyReplaceAux (pat rep : List Char) : Nat → List Char → List Char
  | _, [] => []
  | 0, hay => hay
  | fuel+1, a :: t =>
    if pat.isPrefixOf (a :: t) then
      rep ++ pyReplaceAux pat rep fuel (List.drop (pat.length - 1) t)
    else a :: pyReplaceAux pat rep fuel t

/-- Model of Python `s.replace(pat, rep)` for a non-empty pattern. -/
def pyReplace (s pat rep : String) : String :=
  if pat.data = [] then s else ⟨pyReplaceAux pat.data rep.data s.data.length s.data⟩

/-- Model of Python `s.endswith(suf)`. -/
def pyEndsWith (s suf : String) : Bool := suf.data.isSuffixOf s.data

/-- Substring search on character lists: does `needle` occur inside `hay`? -/
def subSearch (needle : List Char) : List Char → Bool
  | [] => needle.isPrefixOf []
  | a :: t => needle.isPrefixOf (a :: t) || subSearch needle t

/-- Model of the Python operator `needle in hay` on strings. -/
def pyIn (needle hay : String) : Bool := subSearch needle.data hay.data

/-- Concatenation of a list of strings, no separator. -/
def joinAll : List String → String
  | [] => ""
  | a :: r => a ++ joinAll r

/-- Model of the Python slice `s[:-1]` (drop the final character). -/
def dropRight1 (s : String) : String := ⟨s.data.dropLast⟩

/-- A node of the generated XML document: tag, optional text, children.
This models the `xml.etree.ElementTree` trees the two generators build
(attributes are never used by this code). -/
inductive XElem where
  | mk (tag : String) (txt : Option String) (children : List XElem)

def XElem.tag : XElem → String | .mk t _ _ => t

def XElem.txt : XElem → Option String | .mk _ x _ => x

def XElem.children : XElem → List XElem | .mk _ _ c => c

/-- Leaf element with text, as produced by `ET.SubElement(p, tag).text = t`. -/
def mkT (tag t : String) : XElem := .mk tag (some t) []

/-- Children of `x` carrying the given tag. -/
def XElem.taggedChildren (x : XElem) (t : String) : List XElem :=
  x.children.filter (fun c => c.tag == t)

/-- First child of `x` with the given tag, like `Element.find`. -/
def findChild (x : XElem) (t : String) : Option XElem := (x.taggedChildren t).head?

/-- Text of the first child of `x` with the given tag. -/
def childText (x : XElem) (t : String) : Option String := (findChild x t).bind XElem.txt

/-- The empty placeholder element. -/
def xnil : XElem := .mk "" none []

/-- One aggregated item (or item prototype): the 6-tuple
`[name, mib_name, key, oid, data_type, description]` both scripts build.
`value_type` is `Option String` because `MIBProcessor.get_data_type` can
return `None`. -/
structure Item where
  name : String
  mib_name : String
  key : String
  oid : String
  value_type : Option String
  description : String
deriving DecidableEq, Repr

namespace M2Z

/-- The static SNMP-to-Zabbix type table `DATATYPES` of mib2zabbix-py.py
(lines 20-45), in source order. -/
def DATATYPES : List (String × String) := [
  ("STRING", "CHAR"),
  ("OID", "CHAR"),
  ("TIMETICKS", "FLOAT"),
  ("BITS", "TEXT"),
  ("COUNTER", "FLOAT"),
  ("COUNTER32", "FLOAT"),
  ("COUNTER64", "FLOAT"),
  ("GAUGE", "FLOAT"),
  ("GAUGE32", "FLOAT"),
  ("INTEGER", "FLOAT"),
  ("INTEGER32", "FLOAT"),
  ("IPADDR", "TEXT"),
  ("IPADDRESS", "TEXT"),
  ("NETADDDR", "TEXT"),
  ("NOTIF", "LOG"),
  ("TRAP", "LOG"),
  ("OBJECTID", "TEXT"),
  ("OCTETSTR", "TEXT"),
  ("OPAQUE", "TEXT"),
  ("TICKS", "FLOAT"),
  ("UNSIGNED32", "FLOAT"),
  ("WRONG TYPE (SHOULD BE GAUGE32 OR UNSIGNED32)", "TEXT"),
  ("\"\"", "TEXT"),
  ("HEX-STRING", "TEXT")]

/-- `MIBProcessor.get_data_type` (lines 56-69).  Returns the Zabbix type
(`None` when the looked-up value is the empty string) together with the
list of diagnostic lines printed by the call.  The diagnostic is printed
when `data_type == snmp_type.upper()`, exactly as in the source. -/
def get_data_type (snmp_type : String) : Option String × List String :=
  let data_type := (List.lookup (pyUpper snmp_type) DATATYPES).getD "TEXT"
  let logs :=
    if data_type = pyUpper snmp_type then
      ["Unhandled data type [" ++ snmp_type ++ "] so assigning TEXT"]
    else []
  (if data_type ≠ "" then some data_type else none, logs)

/-- Mutable state of one walk-mode run: the local `template_name` of
`process_walk_mode` plus the `MIBProcessor` fields `items`,
`discovery_rules` (an insertion-ordered dict, modelled as an association
list) and `last_part_10`. -/
structure WalkState where
  template_name : String
  items : List Item
  discovery_rules : List (String × List Item)
  last_part_10 : String
deriving DecidableEq, Repr

/-- Dict membership test `table_name in self.processor.discovery_rules`. -/
def rulesMember : List (String × List Item) → String → Bool
  | [], _ => false
  | e :: t, k => e.1 == k || rulesMember t k

/-- Dict read `self.processor.discovery_rules[table_name]` (first entry
with the key; keys are unique by construction). -/
def rulesGet : List (String × List Item) → String → Option (List Item)
  | [], _ => none
  | e :: t, k => if e.1 = k then some e.2 else rulesGet t k

/-- Dict update `self.processor.discovery_rules[table_name].append(p)`. -/
def rulesAppend (rules : List (String × List Item)) (k : String) (p : Item) :
    List (String × List Item) :=
  rules.map fun e => if e.1 = k then (e.1, e.2 ++ [p]) else e

/-- The walk-mode table test of line 265:
`len(oid_parts) >= 9 and oid_parts[8].upper().endswith("TABLE")`. -/
def isTableParts (ps : List String) : Bool :=
  decide (9 ≤ ps.length) && pyEndsWith (pyUpper (ps.getD 8 "")) "TABLE"

/-- The table identifier of line 267:
`f"{mib_name.split('::')[0]}::{oid_parts[8]}"`. -/
def tableNameOf (mib_name : String) (ps : List String) : String :=
  (pySplit mib_name "::").headD "" ++ "::" ++ ps.getD 8 ""

/-- The body of the per-line loop of `process_walk_mode` (lines 263-301),
after the line has been parsed and `get_mib_info` has produced
`(mib_name, description, formatted_oid)`. -/
def processEntry (st : WalkState)
    (oid value snmp_type mib_name description formatted_oid : String) : WalkState :=
  let oid_parts := pySplit formatted_oid "."
  if isTableParts oid_parts then
    let table_name := tableNameOf mib_name oid_parts
    let member := rulesMember st.discovery_rules table_name
    let rules0 := if member then st.discovery_rules
                  else st.discovery_rules ++ [(table_name, [])]
    let last0 := if member then st.last_part_10 else ""
    if 10 < oid_parts.length ∧ last0 ≠ oid_parts.getD 10 "" then
      let oid_base := joinDot "." ((pySplit oid ".").dropLast)
      let item_proto : Item :=
        { name := if 10 < oid_parts.length then oid_parts.getD 10 "" else "column"
          mib_name := mib_name
          key := pyReplace mib_name "::" "."
          oid := oid_base
          value_type := (get_data_type snmp_type).1
          description := description }
      { st with discovery_rules := rulesAppend rules0 table_name item_proto
                last_part_10 := oid_parts.getD 10 "" }
    else
      { st with discovery_rules := rules0, last_part_10 := last0 }
  else
    let name0 := if pyIn "::" mib_name then (pySplit mib_name "::").getD 1 "" else mib_name
    let name := (pySplit name0 ".").headD ""
    let key := if pyIn "::" mib_name then pyReplace mib_name "::" "." else oid
    let tname := if oid = ".1.3.6.1.2.1.1.5.0" then value else st.template_name
    { st with
        template_name := tname
        items := st.items ++ [{ name := name, mib_name := mib_name, key := key, oid := oid,
                                value_type := (get_data_type snmp_type).1,
                                description := description }] }

/-- One iteration of the walk loop (lines 240-301): skip empty or
sentinel lines, split on the first `=`, extract type and value, resolve
via `getInfo` (the `get_mib_info` collaborator) and process. -/
def processWalkLine (getInfo : String → String × String × String)
    (st : WalkState) (oid_line : String) : WalkState :=
  if oid_line = "" ∨ pyIn "NO MORE VARIABLES LEFT" (pyUpper oid_line) = true then st
  else
    match pySplit1 oid_line "=" with
    | [p0, p1] =>
      let oid := pyStrip p0
      let value_part := pyStrip p1
      let tv :=
        match pySplit1 value_part ":" with
        | [t, v] => (pyStrip t, pyStrip v)
        | _ => ("STRING", value_part)
      let info := getInfo oid
      processEntry st oid tv.2 tv.1 info.1 info.2.1 info.2.2
    | _ => st

/-- The walk-mode aggregation pass over all lines of the walk output. -/
def process_walk (getInfo : String → String × String × String)
    (lines : List String) : WalkState :=
  lines.foldl (processWalkLine getInfo)
    { template_name := "SNMP Template", items := [], discovery_rules := [], last_part_10 := "" }

/-- The command-line options of mib2zabbix-py.py that the template
generator reads (with their argparse defaults). -/
structure Args where
  oid : String
  name : Option String := none
  group : String := "Templates"
  enable_items : Bool := false
  check_delay : String := "60"
  disc_delay : String := "3600"
  history : String := "7"
  trends : String := "365"

/-- One `<item>` element (lines 350-363). -/
def renderItem (args : Args) (u : String) (it : Item) : XElem :=
  XElem.mk "item" none
    ([mkT "uuid" u,
      mkT "name" it.name,
      mkT "type" "SNMP_AGENT",
      mkT "snmp_oid" it.oid,
      mkT "key" it.key] ++
     (match it.value_type with
      | some vt => if vt ≠ "" then [mkT "value_type" vt] else []
      | none => []) ++
     [mkT "description" it.description,
      mkT "history" (args.history ++ "d"),
      mkT "trends" args.trends,
      mkT "status" (if args.enable_items then "ENABLED" else "DISABLED"),
      mkT "delay" args.check_delay])

/-- The `<items>` children, with the uuid supply threaded in call order. -/
def renderItems (args : Args) (uu : Nat → String) : Nat → List Item → List XElem
  | _, [] => []
  | n, it :: r => renderItem args (uu n) it :: renderItems args uu (n + 1) r

/-- One `<item_prototype>` element (lines 383-393): name and OID suffixed
with `.{#SNMPINDEX}`, key suffixed with `[{#SNMPINDEX}]`; no trends and
no status field here. -/
def renderProto (args : Args) (u : String) (p : Item) : XElem :=
  XElem.mk "item_prototype" none
    ([mkT "uuid" u,
      mkT "name" (p.name ++ ".\x7b#SNMPINDEX\x7d"),
      mkT "type" "SNMP_AGENT",
      mkT "snmp_oid" (p.oid ++ ".\x7b#SNMPINDEX\x7d"),
      mkT "key" (p.oid ++ "[\x7b#SNMPINDEX\x7d]")] ++
     (match p.value_type with
      | some vt => if vt ≠ "" then [mkT "value_type" vt] else []
      | none => []) ++
     [mkT "delay" args.check_delay,
      mkT "history" (args.history ++ "d"),
      mkT "description" p.description])

/-- The `<item_prototypes>` children, uuid supply threaded in order. -/
def renderProtos (args : Args) (uu : Nat → String) : Nat → List Item → List XElem
  | _, [] => []
  | n, p :: r => renderProto args (uu n) p :: renderProtos args uu (n + 1) r

/-- One accumulated discovery triple (line 396):
`"{#" + proto[0].upper() + "}," + proto[3] + ","`. -/
def oidAppendOf (p : Item) : String :=
  "\x7b#" ++ pyUpper p.name ++ "\x7d," ++ p.oid ++ ","

/-- The accumulated `snmp_oids` string (lines 380-398): a triple is added
only while the result stays under 501 characters. -/
def snmpOids (ps : List Item) : String :=
  ps.foldl
    (fun acc p => if (acc ++ oidAppendOf p).length < 501 then acc ++ oidAppendOf p else acc)
    ""

/-- One `<discovery_rule>` element (lines 369-402). -/
def renderRule (args : Args) (uu : Nat → String) (n : Nat)
    (rule_name : String) (ps : List Item) : XElem :=
  XElem.mk "discovery_rule" none
    ([mkT "uuid" (uu n),
      mkT "name" (if pyIn "::" rule_name then (pySplit rule_name "::").getD 1 "" else rule_name),
      mkT "delay" args.disc_delay,
      mkT "key" (pyReplace rule_name "::" "."),
      mkT "status" "DISABLED",
      mkT "type" "SNMP_AGENT"] ++
     (if ps ≠ [] then
        [XElem.mk "item_prototypes" none (renderProtos args uu (n + 1) ps)] ++
        (if snmpOids ps ≠ "" then
          [mkT "snmp_oid" ("discovery[" ++ dropRight1 (snmpOids ps) ++ "]")]
         else [])
      else []))

/-- The `<discovery_rules>` children, uuid supply threaded in order. -/
def renderRules (args : Args) (uu : Nat → String) :
    Nat → List (String × List Item) → List XElem
  | _, [] => []
  | n, e :: r => renderRule args uu n e.1 e.2 :: renderRules args uu (n + 1 + e.2.length) r

/-- `MIB2ZabbixGenerator.generate_template` (lines 323-421), up to the
pretty-printing and output step: the XML tree that is serialized. -/
def generate_template (uu : Nat → String) (args : Args) (items : List Item)
    (rules : List (String × List Item)) (template_name : String) : XElem :=
  XElem.mk "zabbix_export" none
    [mkT "version" "6.0",
     XElem.mk "templates" none
       [XElem.mk "template" none
         ([mkT "uuid" (uu 0),
           mkT "template" (template_name ++ " SNMP"),
           mkT "name" (template_name ++ " SNMP"),
           mkT "description" "Template generated by mib2zabbix-py",
           XElem.mk "groups" none [XElem.mk "group" none [mkT "name" args.group]]] ++
          (if items ≠ [] then [XElem.mk "items" none (renderItems args uu 1 items)] else []) ++
          (if rules ≠ [] then
            [XElem.mk "discovery_rules" none (renderRules args uu (1 + items.length) rules)]
           else []))]]

/-- The two hard-coded items of `generate_basic_template` (lines 315-320). -/
def basicItems : List Item :=
  [{ name := "sysDescr", mib_name := "SNMPv2-MIB::sysDescr.0", key := "SNMPv2-MIB.sysDescr.0",
     oid := ".1.3.6.1.2.1.1.1.0", value_type := some "CHAR",
     description := "System description" },
   { name := "sysUpTime", mib_name := "SNMPv2-MIB::sysUpTime.0", key := "SNMPv2-MIB.sysUpTime.0",
     oid := ".1.3.6.1.2.1.1.3.0", value_type := some "FLOAT",
     description := "System uptime" }]

/-- `generate_basic_template` (lines 312-321): the template name is
`self.args.name or "Generated SNMP Template"` (Python `or`, so an empty
string also falls back), the items are the two hard-coded ones and the
discovery-rule dict is left empty. -/
def generate_basic_template (uu : Nat → String) (args : Args) : XElem :=
  let template_name :=
    match args.name with
    | some s => if s = "" then "Generated SNMP Template" else s
    | none => "Generated SNMP Template"
  generate_template uu args basicItems [] template_name

/-- `process_mib_mode` (lines 219-224): it only prints a message and
calls `generate_basic_template`; the root OID and any MIB content are
never consulted. -/
def process_mib_mode (uu : Nat → String) (args : Args) : XElem :=
  generate_basic_template uu args

/-- The whole walk-mode pipeline: aggregate the walk lines, then render
the template with the final template name (lines 226-303). -/
def walk_output (getInfo : String → String × String × String) (uu : Nat → String)
    (args : Args) (lines : List String) : XElem :=
  let st := process_walk getInfo lines
  generate_template uu args st.items st.discovery_rules st.template_name

end M2Z

namespace M2T

/-- `MIBTemplateGenerator.is_table_symbol` (mib2template.py lines
191-193): the disjunctive substring heuristic. -/
def is_table_symbol (symbol syntax0 : String) : Bool :=
  pyIn ".1" symbol || pyIn "Table" symbol || pyIn "Entry" symbol || pyIn "Table" syntax0

/-- The command-line options of mib2template.py that its generator reads
(with their argparse defaults). -/
structure Args where
  module : String
  template_name : Option String := none
  group : String := "Templates"
  enable_items : Bool := false
  check_delay : String := "60"
  disc_delay : String := "3600"
  history : String := "7"
  trends : String := "365"

/-- One `<item>` element of mib2template.py (lines 289-301); here both
history and trends carry the `d` suffix. -/
def renderItem (args : Args) (u : String) (it : Item) : XElem :=
  XElem.mk "item" none
    ([mkT "uuid" u,
      mkT "name" it.name,
      mkT "type" "SNMP_AGENT",
      mkT "snmp_oid" it.oid,
      mkT "key" it.key] ++
     (match it.value_type with
      | some vt => if vt ≠ "" then [mkT "value_type" vt] else []
      | none => []) ++
     [mkT "description" it.description,
      mkT "history" (args.history ++ "d"),
      mkT "trends" (args.trends ++ "d"),
      mkT "status" (if args.enable_items then "ENABLED" else "DISABLED"),
      mkT "delay" args.check_delay])

/-- The `<items>` children, uuid supply threaded in call order. -/
def renderItems (args : Args) (uu : Nat → String) : Nat → List Item → List XElem
  | _, [] => []
  | n, it :: r => renderItem args (uu n) it :: renderItems args uu (n + 1) r

/-- One `<item_prototype>` element of mib2template.py (lines 318-330):
same `{#SNMPINDEX}` suffixes, plus trends and a DISABLED status. -/
def renderProto (args : Args) (u : String) (p : Item) : XElem :=
  XElem.mk "item_prototype" none
    ([mkT "uuid" u,
      mkT "name" (p.name ++ ".\x7b#SNMPINDEX\x7d"),
      mkT "type" "SNMP_AGENT",
      mkT "snmp_oid" (p.oid ++ ".\x7b#SNMPINDEX\x7d"),
      mkT "key" (p.oid ++ "[\x7b#SNMPINDEX\x7d]")] ++
     (match p.value_type with
      | some vt => if vt ≠ "" then [mkT "value_type" vt] else []
      | none => []) ++
     [mkT "delay" args.check_delay,
      mkT "history" (args.history ++ "d"),
      mkT "trends" (args.trends ++ "d"),
      mkT "description" p.description,
      mkT "status" "DISABLED"])

/-- The `<item_prototypes>` children, uuid supply threaded in order. -/
def renderProtos (args : Args) (uu : Nat → String) : Nat → List Item → List XElem
  | _, [] => []
  | n, p :: r => renderProto args (uu n) p :: renderProtos args uu (n + 1) r

/-- One `<discovery_rule>` element of mib2template.py (lines 307-330);
unlike mib2zabbix-py there is no `discovery[...]` key payload here. -/
def renderRule (args : Args) (uu : Nat → String) (n : Nat)
    (rule_name : String) (ps : List Item) : XElem :=
  XElem.mk "discovery_rule" none
    ([mkT "uuid" (uu n),
      mkT "name" (if pyIn "::" rule_name then (pySplit rule_name "::").getD 1 "" else rule_name),
      mkT "delay" args.disc_delay,
      mkT "key" (pyReplace rule_name "::" "."),
      mkT "status" "DISABLED",
      mkT "type" "SNMP_AGENT"] ++
     (if ps ≠ [] then [XElem.mk "item_prototypes" none (renderProtos args uu (n + 1) ps)]
      else []))

/-- The `<discovery_rules>` children, uuid supply threaded in order. -/
def renderRules (args : Args) (uu : Nat → String) :
    Nat → List (String × List Item) → List XElem
  | _, [] => []
  | n, e :: r => renderRule args uu n e.1 e.2 :: renderRules args uu (n + 1 + e.2.length) r

/-- `MIBTemplateGenerator.generate_template` (lines 265-344), up to the
pretty-printing and output step.  The template name is
`self.args.template_name or self.args.module`. -/
def generate_template (uu : Nat → String) (args : Args) (items : List Item)
    (rules : List (String × List Item)) : XElem :=
  let template_name :=
    match args.template_name with
    | some s => if s = "" then args.module else s
    | none => args.module
  XElem.mk "zabbix_export" none
    [mkT "version" "6.0",
     XElem.mk "templates" none
       [XElem.mk "template" none
         ([mkT "uuid" (uu 0),
           mkT "template" (template_name ++ " SNMP"),
           mkT "name" (template_name ++ " SNMP"),
           mkT "description" ("Template generated from MIB " ++ args.module),
           XElem.mk "groups" none [XElem.mk "group" none [mkT "name" args.group]]] ++
          (if items ≠ [] then [XElem.mk "items" none (renderItems args uu 1 items)] else []) ++
          (if rules ≠ [] then
            [XElem.mk "discovery_rules" none (renderRules args uu (1 + items.length) rules)]
           else []))]]

end M2T

/-- The `<template>` element of a generated document. -/
def templateOf (doc : XElem) : XElem :=
  (findChild ((findChild doc "templates").getD xnil) "template").getD xnil

/-- The `<item>` elements of a generated document. -/
def docItems (doc : XElem) : List XElem :=
  ((findChild (templateOf doc) "items").getD xnil).taggedChildren "item"

/-- The `<discovery_rule>` elements of a generated document. -/
def docRules (doc : XElem) : List XElem :=
  ((findChild (templateOf doc) "discovery_rules").getD xnil).taggedChildren "discovery_rule"

/-- The `<item_prototype>` elements nested under one discovery rule. -/
def protosOf (r : XElem) : List XElem :=
  ((findChild r "item_prototypes").getD xnil).taggedChildren "item_prototype"

/-- The observable identity of a rendered item: name, OID and key texts. -/
def itemTriple (x : XElem) : String × String × String :=
  ((childText x "name").getD "", (childText x "snmp_oid").getD "", (childText x "key").getD "")

/-! Concrete fixtures used by witnesses and counterexamples. -/

/-- Fixture resolver mapping the three OIDs of the dedup counterexample to
table-shaped formatted OIDs (9th segment `aTable` or `bTable`, 11th
segment the row index); everything else resolves to itself, like the
error fallback of `get_mib_info`. -/
def getInfo3 : String → String × String × String := fun oid =>
  if oid = ".1.2.3.1" then ("M::colA.1", "", "m.x.x.x.x.x.x.x.aTable.e.1")
  else if oid = ".1.2.9.2" then ("M::colB.2", "", "m.x.x.x.x.x.x.x.bTable.e.2")
  else if oid = ".1.2.4.1" then ("M::colC.1", "", "m.x.x.x.x.x.x.x.aTable.e.1")
  else (oid, "", oid)

/-- Fixture resolver behaving like the `CalledProcessError` fallback of
`get_mib_info`: every OID resolves to itself with empty description. -/
def getInfo6 : String → String × String × String := fun oid => (oid, "", oid)

/-- Fixture uuid supply. -/
def uuFix : Nat → String := fun _ => "u"

/-- Fixture argument record with the argparse defaults of mib2zabbix-py. -/
def argsFix : M2Z.Args := { oid := ".1.3.6.1.2.1" }

/-- Fixture table-shaped formatted OID with 11 dot-separated segments
(9th segment `aTable`, 11th segment `1`). -/
def fmtFix : String := "m.x.x.x.x.x.x.x.aTable.e.1"

/-- Fixture table-shaped formatted OID with only 10 segments. -/
def fmtShort : String := "m.x.x.x.x.x.x.x.aTable.e"

/-- Fixture item for the retention counterexample. -/
def c8It : Item :=
  { name := "x", mib_name := "M::x", key := "M.x", oid := ".1.2",
    value_type := some "FLOAT", description := "" }

/-! Helper lemmas: projections, substring search, dictionary operations. -/

@[simp] theorem XElem.tag_mk (t : String) (x : Option String) (c : List XElem) :
    (XElem.mk t x c).tag = t := rfl

@[simp] theorem XElem.txt_mk (t : String) (x : Option String) (c : List XElem) :
    (XElem.mk t x c).txt = x := rfl

@[simp] theorem XElem.children_mk (t : String) (x : Option String) (c : List XElem) :
    (XElem.mk t x c).children = c := rfl

@[simp] theorem mkT_tag (a t : String) : (mkT a t).tag = a := rfl

@[simp] theorem mkT_txt (a t : String) : (mkT a t).txt = some t := rfl

theorem subSearch_iff (n h : List Char) : subSearch n h = true ↔ n <:+: h := by
  induction h with
  | nil => simp [subSearch, List.isPrefixOf_iff_prefix, List.infix_nil, List.prefix_nil]
  | cons a t ih => simp [subSearch, List.isPrefixOf_iff_prefix, List.infix_cons_iff, ih]

/-- The model of the Python `in` operator agrees with list-infix containment. -/
theorem pyIn_iff (needle hay : String) : pyIn needle hay = true ↔ needle.data <:+: hay.data :=
  subSearch_iff needle.data hay.data

theorem strAppendEmpty (s : String) : s ++ "" = s := s.append_empty

namespace M2Z

theorem rulesAppend_cons (e : String × List Item) (t : List (String × List Item))
    (k : String) (p : Item) :
    rulesAppend (e :: t) k p =
      (if e.1 = k then (e.1, e.2 ++ [p]) else e) :: rulesAppend t k p := rfl

theorem rulesMember_rulesAppend (r : List (String × List Item)) (k k' : String) (p : Item) :
    rulesMember (rulesAppend r k p) k' = rulesMember r k' := by
  induction r with
  | nil => rfl
  | cons e t ih =>
      rw [rulesAppend_cons]
      by_cases h : e.1 = k <;> simp [rulesMember, h, ih]

theorem rulesMember_append (r r' : List (String × List Item)) (k : String) :
    rulesMember (r ++ r') k = (rulesMember r k || rulesMember r' k) := by
  induction r with
  | nil => rfl
  | cons e t ih => simp [rulesMember, ih, Bool.or_assoc]

theorem rulesGet_rulesAppend (r : List (String × List Item)) (k k' : String) (p : Item) :
    rulesGet (rulesAppend r k p) k' =
      if k' = k then (rulesGet r k').map (fun l => l ++ [p]) else rulesGet r k' := by
  induction r with
  | nil => simp [rulesAppend, rulesGet]
  | cons e t ih =>
      rw [rulesAppend_cons]
      by_cases h1 : e.1 = k
      · by_cases h2 : e.1 = k'
        · simp [rulesGet, h1, h2, h1 ▸ h2.symm]
        · have hkk : ¬ k = k' := fun hh => h2 (h1.trans hh)
          have hkk2 : ¬ k' = k := fun hh => hkk hh.symm
          simp [rulesGet, h1, h2, ih, hkk, hkk2]
      · by_cases h2 : e.1 = k'
        · have : k' = k ↔ False := by
            constructor
            · intro hk; exact h1 (h2.symm ▸ hk ▸ rfl)
            · exact False.elim
          simp [rulesGet, h1, h2, this]
        · simp [rulesGet, h1, h2, ih]

theorem rulesGet_append_ne (r : List (String × List Item)) (tn k : String)
    (v : List Item) (h : k ≠ tn) :
    rulesGet (r ++ [(tn, v)]) k = rulesGet r k := by
  induction r with
  | nil => simp [rulesGet, Ne.symm h]
  | cons e t ih => by_cases h1 : e.1 = k <;> simp [rulesGet, h1, ih]

theorem rulesGet_append_self (r : List (String × List Item)) (tn : String)
    (v : List Item) (h : rulesMember r tn = false) :
    rulesGet (r ++ [(tn, v)]) tn = some v := by
  induction r with
  | nil => simp [rulesGet]
  | cons e t ih =>
      rw [rulesMember] at h
      simp only [Bool.or_eq_false_iff] at h
      have h1 : ¬ e.1 = tn := by
        intro hh
        rw [hh] at h
        simp at h
      simp [rulesGet, h1, ih h.2]

theorem rulesGet_none_of_not_member (r : List (String × List Item)) (k : String)
    (h : rulesMember r k = false) : rulesGet r k = none := by
  induction r with
  | nil => rfl
  | cons e t ih =>
      rw [rulesMember] at h
      simp only [Bool.or_eq_false_iff] at h
      have h1 : ¬ e.1 = k := by
        intro hh
        rw [hh] at h
        simp at h
      simp [rulesGet, h1, ih h.2]

theorem rulesGet_isSome_of_member (r : List (String × List Item)) (k : String)
    (h : rulesMember r k = true) : ∃ v, rulesGet r k = some v := by
  induction r with
  | nil => simp [rulesMember] at h
  | cons e t ih =>
      rw [rulesMember] at h
      by_cases h1 : e.1 = k
      · exact ⟨e.2, by simp [rulesGet, h1]⟩
      · have h2 : rulesMember t k = true := by
          simpa [Bool.or_eq_true, beq_iff_eq, h1] using h
        obtain ⟨v, hv⟩ := ih h2
        exact ⟨v, by simp [rulesGet, h1, hv]⟩

theorem rulesAppend_keys (r : List (String × List Item)) (k : String) (p : Item) :
    (rulesAppend r k p).map Prod.fst = r.map Prod.fst := by
  induction r with
  | nil => rfl
  | cons e t ih =>
      rw [rulesAppend_cons]
      by_cases h : e.1 = k <;> simp [h, ih]

end M2Z

namespace M2Z

/-- On a non-table line the walk loop appends exactly one standalone item
and touches neither the discovery rules nor the dedup register. -/
theorem processEntry_not_table (st : WalkState)
    (oid value snmp_type mib desc fmt : String)
    (h : isTableParts (pySplit fmt ".") = false) :
    processEntry st oid value snmp_type mib desc fmt =
      { st with
          template_name := if oid = ".1.3.6.1.2.1.1.5.0" then value else st.template_name
          items := st.items ++
            [{ name := (pySplit (if pyIn "::" mib then (pySplit mib "::").getD 1 "" else mib)
                          ".").headD ""
               mib_name := mib
               key := if pyIn "::" mib then pyReplace mib "::" "." else oid
               oid := oid
               value_type := (get_data_type snmp_type).1
               description := desc }] } := by
  simp only [processEntry, h, Bool.false_eq_true, if_false]

/-- On a table line the walk loop never touches the flat item list nor
the template name. -/
theorem processEntry_table_obs (st : WalkState)
    (oid value snmp_type mib desc fmt : String)
    (h : isTableParts (pySplit fmt ".") = true) :
    (processEntry st oid value snmp_type mib desc fmt).items = st.items ∧
    (processEntry st oid value snmp_type mib desc fmt).template_name = st.template_name := by
  simp only [processEntry, h, if_true]
  refine ⟨?_, ?_⟩ <;> (split <;> (split <;> rfl))

/-- After a table line has been processed, its table is a key of the
discovery-rule dict. -/
theorem processEntry_table_member (st : WalkState)
    (oid value snmp_type mib desc fmt : String)
    (h : isTableParts (pySplit fmt ".") = true) :
    rulesMember (processEntry st oid value snmp_type mib desc fmt).discovery_rules
      (tableNameOf mib (pySplit fmt ".")) = true := by
  simp only [processEntry, h, if_true]
  cases hm : rulesMember st.discovery_rules (tableNameOf mib (pySplit fmt ".")) with
  | true =>
      simp only [hm, if_true]
      split
      · simpa [rulesMember_rulesAppend] using hm
      · exact hm
  | false =>
      simp only [hm, Bool.false_eq_true, if_false]
      split
      · simp [rulesMember_rulesAppend, rulesMember_append, rulesMember]
      · simp [rulesMember_append, rulesMember]

/-- After a table line whose formatted OID has more than 10 segments, the
dedup register holds exactly the 11th segment of that OID. -/
theorem processEntry_table_last (st : WalkState)
    (oid value snmp_type mib desc fmt : String)
    (h : isTableParts (pySplit fmt ".") = true)
    (hlen : 10 < (pySplit fmt ".").length) :
    (processEntry st oid value snmp_type mib desc fmt).last_part_10 =
      (pySplit fmt ".").getD 10 "" := by
  simp only [processEntry, h, if_true]
  cases hm : rulesMember st.discovery_rules (tableNameOf mib (pySplit fmt ".")) with
  | true =>
      simp only [hm, if_true]
      split
      · rfl
      · next hc =>
          rcases not_and_or.mp hc with hc1 | hc2
          · exact absurd hlen hc1
          · exact not_not.mp hc2
  | false =>
      simp only [hm, Bool.false_eq_true, if_false]
      split
      · rfl
      · next hc =>
          rcases not_and_or.mp hc with hc1 | hc2
          · exact absurd hlen hc1
          · exact not_not.mp hc2

/-- A table line whose table is already registered and whose 11th segment
equals the current dedup register leaves the state untouched. -/
theorem processEntry_table_noop (st : WalkState)
    (oid value snmp_type mib desc fmt : String)
    (h : isTableParts (pySplit fmt ".") = true)
    (hmem : rulesMember st.discovery_rules (tableNameOf mib (pySplit fmt ".")) = true)
    (hlast : st.last_part_10 = (pySplit fmt ".").getD 10 "") :
    processEntry st oid value snmp_type mib desc fmt = st := by
  simp only [processEntry, h, if_true, hmem]
  have hnc : ¬(10 < (pySplit fmt ".").length ∧
      st.last_part_10 ≠ (pySplit fmt ".").getD 10 "") := fun hc => hc.2 hlast
  rw [if_neg hnc]

end M2Z

namespace M2Z

/-- A table line changes the key set of the discovery-rule dict only by
possibly adding its own table name at the end. -/
theorem processEntry_table_keys (st : WalkState)
    (oid value snmp_type mib desc fmt : String)
    (h : isTableParts (pySplit fmt ".") = true) :
    (processEntry st oid value snmp_type mib desc fmt).discovery_rules.map Prod.fst =
      (if rulesMember st.discovery_rules (tableNameOf mib (pySplit fmt ".")) = true
       then st.discovery_rules.map Prod.fst
       else st.discovery_rules.map Prod.fst ++ [tableNameOf mib (pySplit fmt ".")]) := by
  simp only [processEntry, h, if_true]
  cases hm : rulesMember st.discovery_rules (tableNameOf mib (pySplit fmt ".")) with
  | true =>
      simp only [hm, if_true]
      split
      · simp [rulesAppend_keys]
      · rfl
  | false =>
      simp only [hm, Bool.false_eq_true, if_false]
      split
      · simp [rulesAppend_keys]
      · simp

/-- A table line leaves the prototype list of every other rule intact. -/
theorem processEntry_table_other_rules (st : WalkState)
    (oid value snmp_type mib desc fmt : String) (k : String)
    (h : isTableParts (pySplit fmt ".") = true)
    (hk : k ≠ tableNameOf mib (pySplit fmt ".")) :
    rulesGet (processEntry st oid value snmp_type mib desc fmt).discovery_rules k =
      rulesGet st.discovery_rules k := by
  simp only [processEntry, h, if_true]
  cases hm : rulesMember st.discovery_rules (tableNameOf mib (pySplit fmt ".")) with
  | true =>
      simp only [hm, if_true]
      split
      · simp [rulesGet_rulesAppend, hk]
      · rfl
  | false =>
      simp only [hm, Bool.false_eq_true, if_false]
      split
      · simp [rulesGet_rulesAppend, hk, rulesGet_append_ne _ _ _ _ hk]
      · simp [rulesGet_append_ne _ _ _ _ hk]

/-- Dedup behaviour of a table line: writing `idx` for the 11th segment
of the formatted OID and `effLast` for the register value after the
possible reset, a prototype named `idx` is appended to this table exactly
when the OID has more than 10 segments and `idx` differs from `effLast`;
otherwise the table keeps its prototypes (an empty list if fresh). -/
theorem processEntry_table_dedup (st : WalkState)
    (oid value snmp_type mib desc fmt : String)
    (h : isTableParts (pySplit fmt ".") = true) :
    (if 10 < (pySplit fmt ".").length ∧
        (if rulesMember st.discovery_rules (tableNameOf mib (pySplit fmt ".")) = true
         then st.last_part_10 else "") ≠ (pySplit fmt ".").getD 10 "" then
      (∃ p : Item, p.name = (pySplit fmt ".").getD 10 "" ∧
        rulesGet (processEntry st oid value snmp_type mib desc fmt).discovery_rules
            (tableNameOf mib (pySplit fmt ".")) =
          some (((rulesGet st.discovery_rules (tableNameOf mib (pySplit fmt "."))).getD [])
            ++ [p])) ∧
      (processEntry st oid value snmp_type mib desc fmt).last_part_10 =
        (pySplit fmt ".").getD 10 ""
     else
      rulesGet (processEntry st oid value snmp_type mib desc fmt).discovery_rules
          (tableNameOf mib (pySplit fmt ".")) =
        some ((rulesGet st.discovery_rules (tableNameOf mib (pySplit fmt "."))).getD []) ∧
      (processEntry st oid value snmp_type mib desc fmt).last_part_10 =
        (if rulesMember st.discovery_rules (tableNameOf mib (pySplit fmt ".")) = true
         then st.last_part_10 else "")) := by
  cases hm : rulesMember st.discovery_rules (tableNameOf mib (pySplit fmt ".")) with
  | true =>
      obtain ⟨v, hv⟩ := rulesGet_isSome_of_member _ _ hm
      by_cases hc : 10 < (pySplit fmt ".").length ∧
          st.last_part_10 ≠ (pySplit fmt ".").getD 10 ""
      · have heq : processEntry st oid value snmp_type mib desc fmt =
            { st with
                discovery_rules := rulesAppend st.discovery_rules
                  (tableNameOf mib (pySplit fmt "."))
                  { name := if 10 < (pySplit fmt ".").length
                            then (pySplit fmt ".").getD 10 "" else "column"
                    mib_name := mib
                    key := pyReplace mib "::" "."
                    oid := joinDot "." ((pySplit oid ".").dropLast)
                    value_type := (get_data_type snmp_type).1
                    description := desc }
                last_part_10 := (pySplit fmt ".").getD 10 "" } := by
          simp only [processEntry, h, if_true, hm, if_pos hc]
        rw [if_pos (by simpa [hm] using hc)]
        refine ⟨⟨{ name := if 10 < (pySplit fmt ".").length
                           then (pySplit fmt ".").getD 10 "" else "column"
                   mib_name := mib
                   key := pyReplace mib "::" "."
                   oid := joinDot "." ((pySplit oid ".").dropLast)
                   value_type := (get_data_type snmp_type).1
                   description := desc }, by simp [hc.1], ?_⟩, by rw [heq]⟩
        rw [heq]
        simp only [rulesGet_rulesAppend, if_pos rfl, hv]
        rfl
      · have heq : processEntry st oid value snmp_type mib desc fmt =
            { st with discovery_rules := st.discovery_rules
                      last_part_10 := st.last_part_10 } := by
          simp only [processEntry, h, if_true, hm, if_neg hc]
        rw [if_neg (by simpa [hm] using hc), heq]
        simp [hv]
  | false =>
      have hv : rulesGet st.discovery_rules (tableNameOf mib (pySplit fmt ".")) = none :=
        rulesGet_none_of_not_member _ _ hm
      by_cases hc : 10 < (pySplit fmt ".").length ∧
          ("" : String) ≠ (pySplit fmt ".").getD 10 ""
      · have heq : processEntry st oid value snmp_type mib desc fmt =
            { st with
                discovery_rules := rulesAppend
                  (st.discovery_rules ++ [(tableNameOf mib (pySplit fmt "."), [])])
                  (tableNameOf mib (pySplit fmt "."))
                  { name := if 10 < (pySplit fmt ".").length
                            then (pySplit fmt ".").getD 10 "" else "column"
                    mib_name := mib
                    key := pyReplace mib "::" "."
                    oid := joinDot "." ((pySplit oid ".").dropLast)
                    value_type := (get_data_type snmp_type).1
                    description := desc }
                last_part_10 := (pySplit fmt ".").getD 10 "" } := by
          simp only [processEntry, h, if_true, hm, Bool.false_eq_true, if_false, if_pos hc]
        rw [if_pos (by simpa [hm] using hc)]
        refine ⟨⟨{ name := if 10 < (pySplit fmt ".").length
                           then (pySplit fmt ".").getD 10 "" else "column"
                   mib_name := mib
                   key := pyReplace mib "::" "."
                   oid := joinDot "." ((pySplit oid ".").dropLast)
                   value_type := (get_data_type snmp_type).1
                   description := desc }, by simp [hc.1], ?_⟩, by rw [heq]⟩
        rw [heq]
        simp only [rulesGet_rulesAppend, if_pos rfl,
          rulesGet_append_self st.discovery_rules _ [] hm, hv]
        rfl
      · have heq : processEntry st oid value snmp_type mib desc fmt =
            { st with
                discovery_rules := st.discovery_rules ++
                  [(tableNameOf mib (pySplit fmt "."), [])]
                last_part_10 := "" } := by
          simp only [processEntry, h, if_true, hm, Bool.false_eq_true, if_false, if_neg hc]
        rw [if_neg (by simpa [hm] using hc), heq]
        simp [rulesGet_append_self st.discovery_rules _ [] hm, hv]

end M2Z

/-! Extraction lemmas for the rendered trees. -/

namespace M2Z

theorem renderItem_triple (args : Args) (u : String) (it : Item) :
    itemTriple (renderItem args u it) = (it.name, it.oid, it.key) := by
  cases hv : it.value_type with
  | none =>
      simp [renderItem, itemTriple, childText, findChild, XElem.taggedChildren, hv, mkT]
  | some vt =>
      by_cases h : vt = "" <;>
        simp [renderItem, itemTriple, childText, findChild, XElem.taggedChildren, hv, h, mkT]

theorem renderItem_history (args : Args) (u : String) (it : Item) :
    childText (renderItem args u it) "history" = some (args.history ++ "d") := by
  cases hv : it.value_type with
  | none => simp [renderItem, childText, findChild, XElem.taggedChildren, hv, mkT]
  | some vt =>
      by_cases h : vt = "" <;>
        simp [renderItem, childText, findChild, XElem.taggedChildren, hv, h, mkT]

theorem renderItem_trends (args : Args) (u : String) (it : Item) :
    childText (renderItem args u it) "trends" = some args.trends := by
  cases hv : it.value_type with
  | none => simp [renderItem, childText, findChild, XElem.taggedChildren, hv, mkT]
  | some vt =>
      by_cases h : vt = "" <;>
        simp [renderItem, childText, findChild, XElem.taggedChildren, hv, h, mkT]

theorem renderItem_value_type (args : Args) (u : String) (it : Item) :
    childText (renderItem args u it) "value_type" =
      (match it.value_type with
       | some vt => if vt ≠ "" then some vt else none
       | none => none) := by
  cases hv : it.value_type with
  | none => simp [renderItem, childText, findChild, XElem.taggedChildren, hv, mkT]
  | some vt =>
      by_cases h : vt = "" <;>
        simp [renderItem, childText, findChild, XElem.taggedChildren, hv, h, mkT]

theorem renderItem_tag (args : Args) (u : String) (it : Item) :
    (renderItem args u it).tag = "item" := rfl

theorem renderItems_triples (args : Args) (uu : Nat → String) (its : List Item) : ∀ n,
    (renderItems args uu n its).map itemTriple =
      its.map (fun it => (it.name, it.oid, it.key)) := by
  induction its with
  | nil => intro n; rfl
  | cons it r ih =>
      intro n
      simp [renderItems, renderItem_triple, ih (n + 1)]

theorem renderItems_retention (args : Args) (uu : Nat → String) (its : List Item) : ∀ n,
    (renderItems args uu n its).map (fun e => (childText e "history", childText e "trends")) =
      its.map (fun _ => (some (args.history ++ "d"), some args.trends)) := by
  induction its with
  | nil => intro n; rfl
  | cons it r ih =>
      intro n
      simp [renderItems, renderItem_history, renderItem_trends, ih (n + 1)]

theorem renderItems_tags (args : Args) (uu : Nat → String) (its : List Item) : ∀ n,
    (renderItems args uu n its).filter (fun c => c.tag == "item") =
      renderItems args uu n its := by
  induction its with
  | nil => intro n; rfl
  | cons it r ih =>
      intro n
      simp [renderItems, renderItem_tag, ih (n + 1)]

theorem renderProto_triple (args : Args) (u : String) (p : Item) :
    itemTriple (renderProto args u p) =
      (p.name ++ ".\x7b#SNMPINDEX\x7d", p.oid ++ ".\x7b#SNMPINDEX\x7d",
       p.oid ++ "[\x7b#SNMPINDEX\x7d]") := by
  cases hv : p.value_type with
  | none =>
      simp [renderProto, itemTriple, childText, findChild, XElem.taggedChildren, hv, mkT]
  | some vt =>
      by_cases h : vt = "" <;>
        simp [renderProto, itemTriple, childText, findChild, XElem.taggedChildren, hv, h, mkT]

theorem renderProto_history (args : Args) (u : String) (p : Item) :
    childText (renderProto args u p) "history" = some (args.history ++ "d") := by
  cases hv : p.value_type with
  | none => simp [renderProto, childText, findChild, XElem.taggedChildren, hv, mkT]
  | some vt =>
      by_cases h : vt = "" <;>
        simp [renderProto, childText, findChild, XElem.taggedChildren, hv, h, mkT]

theorem renderProto_no_trends (args : Args) (u : String) (p : Item) :
    (renderProto args u p).taggedChildren "trends" = [] := by
  cases hv : p.value_type with
  | none => simp [renderProto, XElem.taggedChildren, hv, mkT]
  | some vt =>
      by_cases h : vt = "" <;> simp [renderProto, XElem.taggedChildren, hv, h, mkT]

theorem renderProto_tag (args : Args) (u : String) (p : Item) :
    (renderProto args u p).tag = "item_prototype" := rfl

theorem renderProtos_triples (args : Args) (uu : Nat → String) (ps : List Item) : ∀ n,
    (renderProtos args uu n ps).map itemTriple =
      ps.map (fun p => (p.name ++ ".\x7b#SNMPINDEX\x7d", p.oid ++ ".\x7b#SNMPINDEX\x7d",
        p.oid ++ "[\x7b#SNMPINDEX\x7d]")) := by
  induction ps with
  | nil => intro n; rfl
  | cons p r ih =>
      intro n
      simp [renderProtos, renderProto_triple, ih (n + 1)]

theorem renderProtos_retention (args : Args) (uu : Nat → String) (ps : List Item) : ∀ n,
    (renderProtos args uu n ps).map
        (fun e => (childText e "history", (e.taggedChildren "trends").length)) =
      ps.map (fun _ => (some (args.history ++ "d"), 0)) := by
  induction ps with
  | nil => intro n; rfl
  | cons p r ih =>
      intro n
      simp [renderProtos, renderProto_history, renderProto_no_trends, ih (n + 1)]

theorem renderProtos_tags (args : Args) (uu : Nat → String) (ps : List Item) : ∀ n,
    (renderProtos args uu n ps).filter (fun c => c.tag == "item_prototype") =
      renderProtos args uu n ps := by
  induction ps with
  | nil => intro n; rfl
  | cons p r ih =>
      intro n
      simp [renderProtos, renderProto_tag, ih (n + 1)]

end M2Z

namespace M2Z

theorem renderRule_key (args : Args) (uu : Nat → String) (n : Nat)
    (rn : String) (ps : List Item) :
    childText (renderRule args uu n rn ps) "key" = some (pyReplace rn "::" ".") := by
  by_cases hps : ps = []
  · simp [renderRule, childText, findChild, XElem.taggedChildren, hps, mkT]
  · by_cases hs : snmpOids ps = "" <;>
      simp [renderRule, childText, findChild, XElem.taggedChildren, hps, hs, mkT]

theorem renderRule_protos (args : Args) (uu : Nat → String) (n : Nat)
    (rn : String) (ps : List Item) :
    protosOf (renderRule args uu n rn ps) = renderProtos args uu (n + 1) ps := by
  by_cases hps : ps = []
  · subst hps
    simp [renderRule, protosOf, findChild, XElem.taggedChildren, xnil, mkT, renderProtos]
  · by_cases hs : snmpOids ps = "" <;>
      simp [renderRule, protosOf, findChild, XElem.taggedChildren, xnil, hps, hs, mkT,
        renderProtos_tags]

theorem renderRule_snmp_oid (args : Args) (uu : Nat → String) (n : Nat)
    (rn : String) (ps : List Item) :
    childText (renderRule args uu n rn ps) "snmp_oid" =
      (if ps ≠ [] ∧ snmpOids ps ≠ "" then
        some ("discovery[" ++ dropRight1 (snmpOids ps) ++ "]")
       else none) := by
  by_cases hps : ps = []
  · simp [renderRule, childText, findChild, XElem.taggedChildren, hps, mkT]
  · by_cases hs : snmpOids ps = "" <;>
      simp [renderRule, childText, findChild, XElem.taggedChildren, hps, hs, mkT]

theorem renderRule_tag (args : Args) (uu : Nat → String) (n : Nat)
    (rn : String) (ps : List Item) :
    (renderRule args uu n rn ps).tag = "discovery_rule" := rfl

theorem renderRule_empty_no_protos_elem (args : Args) (uu : Nat → String) (n : Nat)
    (rn : String) :
    (renderRule args uu n rn []).taggedChildren "item_prototypes" = [] ∧
    (renderRule args uu n rn []).taggedChildren "snmp_oid" = [] := by
  constructor <;> simp [renderRule, XElem.taggedChildren, mkT]

end M2Z

namespace M2Z

theorem renderRules_shape (args : Args) (uu : Nat → String)
    (rs : List (String × List Item)) : ∀ n,
    (renderRules args uu n rs).map (fun r => (childText r "key", (protosOf r).map itemTriple)) =
      rs.map (fun e => (some (pyReplace e.1 "::" "."),
        e.2.map (fun p => (p.name ++ ".\x7b#SNMPINDEX\x7d", p.oid ++ ".\x7b#SNMPINDEX\x7d",
          p.oid ++ "[\x7b#SNMPINDEX\x7d]")))) := by
  induction rs with
  | nil => intro n; rfl
  | cons e r ih =>
      intro n
      simp [renderRules, renderRule_key, renderRule_protos, renderProtos_triples,
        ih (n + 1 + e.2.length)]

theorem renderRules_retention (args : Args) (uu : Nat → String)
    (rs : List (String × List Item)) : ∀ n,
    (renderRules args uu n rs).map
        (fun r => (protosOf r).map
          (fun e => (childText e "history", (e.taggedChildren "trends").length))) =
      rs.map (fun e => e.2.map (fun _ => (some (args.history ++ "d"), 0))) := by
  induction rs with
  | nil => intro n; rfl
  | cons e r ih =>
      intro n
      simp [renderRules, renderRule_protos, renderProtos_retention, ih (n + 1 + e.2.length)]

theorem renderRules_tags (args : Args) (uu : Nat → String)
    (rs : List (String × List Item)) : ∀ n,
    (renderRules args uu n rs).filter (fun c => c.tag == "discovery_rule") =
      renderRules args uu n rs := by
  induction rs with
  | nil => intro n; rfl
  | cons e r ih =>
      intro n
      simp [renderRules, renderRule_tag, ih (n + 1 + e.2.length)]

theorem templateOf_generate (uu : Nat → String) (args : Args) (items : List Item)
    (rules : List (String × List Item)) (tn : String) :
    templateOf (generate_template uu args items rules tn) =
      XElem.mk "template" none
        ([mkT "uuid" (uu 0),
          mkT "template" (tn ++ " SNMP"),
          mkT "name" (tn ++ " SNMP"),
          mkT "description" "Template generated by mib2zabbix-py",
          XElem.mk "groups" none [XElem.mk "group" none [mkT "name" args.group]]] ++
         (if items ≠ [] then [XElem.mk "items" none (renderItems args uu 1 items)] else []) ++
         (if rules ≠ [] then
           [XElem.mk "discovery_rules" none (renderRules args uu (1 + items.length) rules)]
          else [])) := by
  simp [generate_template, templateOf, findChild, XElem.taggedChildren, mkT]

theorem generate_docItems (uu : Nat → String) (args : Args) (items : List Item)
    (rules : List (String × List Item)) (tn : String) :
    docItems (generate_template uu args items rules tn) = renderItems args uu 1 items := by
  rw [docItems, templateOf_generate]
  by_cases hi : items = []
  · subst hi
    by_cases hr : rules = [] <;>
      simp [findChild, XElem.taggedChildren, xnil, hr, mkT, renderItems]
  · by_cases hr : rules = [] <;>
      simp [findChild, XElem.taggedChildren, xnil, hi, hr, mkT, renderItems_tags]

theorem generate_docRules (uu : Nat → String) (args : Args) (items : List Item)
    (rules : List (String × List Item)) (tn : String) :
    docRules (generate_template uu args items rules tn) =
      renderRules args uu (1 + items.length) rules := by
  rw [docRules, templateOf_generate]
  by_cases hr : rules = []
  · subst hr
    by_cases hi : items = [] <;>
      simp [findChild, XElem.taggedChildren, xnil, hi, mkT, renderRules]
  · by_cases hi : items = [] <;>
      simp [findChild, XElem.taggedChildren, xnil, hi, hr, mkT, renderRules_tags]

theorem generate_template_title (uu : Nat → String) (args : Args) (items : List Item)
    (rules : List (String × List Item)) (tn : String) :
    childText (templateOf (generate_template uu args items rules tn)) "template" =
        some (tn ++ " SNMP") ∧
    childText (templateOf (generate_template uu args items rules tn)) "name" =
        some (tn ++ " SNMP") := by
  rw [templateOf_generate]
  constructor <;>
    (by_cases hi : items = [] <;> by_cases hr : rules = [] <;>
      simp [childText, findChild, XElem.taggedChildren, hi, hr, mkT])

theorem generate_no_rules_elem (uu : Nat → String) (args : Args) (items : List Item)
    (tn : String) :
    (templateOf (generate_template uu args items [] tn)).taggedChildren "discovery_rules"
      = [] := by
  rw [templateOf_generate]
  by_cases hi : items = [] <;> simp [XElem.taggedChildren, hi, mkT]

end M2Z

namespace M2T

theorem mt_renderItem_triple (args : Args) (u : String) (it : Item) :
    itemTriple (renderItem args u it) = (it.name, it.oid, it.key) := by
  cases hv : it.value_type with
  | none =>
      simp [renderItem, itemTriple, childText, findChild, XElem.taggedChildren, hv, mkT]
  | some vt =>
      by_cases h : vt = "" <;>
        simp [renderItem, itemTriple, childText, findChild, XElem.taggedChildren, hv, h, mkT]

theorem mt_renderItem_history (args : Args) (u : String) (it : Item) :
    childText (renderItem args u it) "history" = some (args.history ++ "d") := by
  cases hv : it.value_type with
  | none => simp [renderItem, childText, findChild, XElem.taggedChildren, hv, mkT]
  | some vt =>
      by_cases h : vt = "" <;>
        simp [renderItem, childText, findChild, XElem.taggedChildren, hv, h, mkT]

theorem mt_renderItem_trends (args : Args) (u : String) (it : Item) :
    childText (renderItem args u it) "trends" = some (args.trends ++ "d") := by
  cases hv : it.value_type with
  | none => simp [renderItem, childText, findChild, XElem.taggedChildren, hv, mkT]
  | some vt =>
      by_cases h : vt = "" <;>
        simp [renderItem, childText, findChild, XElem.taggedChildren, hv, h, mkT]

theorem mt_renderItem_tag (args : Args) (u : String) (it : Item) :
    (renderItem args u it).tag = "item" := rfl

theorem mt_renderItems_triples (args : Args) (uu : Nat → String) (its : List Item) : ∀ n,
    (renderItems args uu n its).map itemTriple =
      its.map (fun it => (it.name, it.oid, it.key)) := by
  induction its with
  | nil => intro n; rfl
  | cons it r ih =>
      intro n
      simp [renderItems, mt_renderItem_triple, ih (n + 1)]

theorem mt_renderItems_retention (args : Args) (uu : Nat → String) (its : List Item) : ∀ n,
    (renderItems args uu n its).map (fun e => (childText e "history", childText e "trends")) =
      its.map (fun _ => (some (args.history ++ "d"), some (args.trends ++ "d"))) := by
  induction its with
  | nil => intro n; rfl
  | cons it r ih =>
      intro n
      simp [renderItems, mt_renderItem_history, mt_renderItem_trends, ih (n + 1)]

theorem mt_renderItems_tags (args : Args) (uu : Nat → String) (its : List Item) : ∀ n,
    (renderItems args uu n its).filter (fun c => c.tag == "item") =
      renderItems args uu n its := by
  induction its with
  | nil => intro n; rfl
  | cons it r ih =>
      intro n
      simp [renderItems, mt_renderItem_tag, ih (n + 1)]

theorem mt_renderProto_triple (args : Args) (u : String) (p : Item) :
    itemTriple (renderProto args u p) =
      (p.name ++ ".\x7b#SNMPINDEX\x7d", p.oid ++ ".\x7b#SNMPINDEX\x7d",
       p.oid ++ "[\x7b#SNMPINDEX\x7d]") := by
  cases hv : p.value_type with
  | none =>
      simp [renderProto, itemTriple, childText, findChild, XElem.taggedChildren, hv, mkT]
  | some vt =>
      by_cases h : vt = "" <;>
        simp [renderProto, itemTriple, childText, findChild, XElem.taggedChildren, hv, h, mkT]

theorem mt_renderProto_history (args : Args) (u : String) (p : Item) :
    childText (renderProto args u p) "history" = some (args.history ++ "d") := by
  cases hv : p.value_type with
  | none => simp [renderProto, childText, findChild, XElem.taggedChildren, hv, mkT]
  | some vt =>
      by_cases h : vt = "" <;>
        simp [renderProto, childText, findChild, XElem.taggedChildren, hv, h, mkT]

theorem mt_renderProto_trends (args : Args) (u : String) (p : Item) :
    childText (renderProto args u p) "trends" = some (args.trends ++ "d") := by
  cases hv : p.value_type with
  | none => simp [renderProto, childText, findChild, XElem.taggedChildren, hv, mkT]
  | some vt =>
      by_cases h : vt = "" <;>
        simp [renderProto, childText, findChild, XElem.taggedChildren, hv, h, mkT]

theorem mt_renderProto_tag (args : Args) (u : String) (p : Item) :
    (renderProto args u p).tag = "item_prototype" := rfl

theorem mt_renderProtos_triples (args : Args) (uu : Nat → String) (ps : List Item) : ∀ n,
    (renderProtos args uu n ps).map itemTriple =
      ps.map (fun p => (p.name ++ ".\x7b#SNMPINDEX\x7d", p.oid ++ ".\x7b#SNMPINDEX\x7d",
        p.oid ++ "[\x7b#SNMPINDEX\x7d]")) := by
  induction ps with
  | nil => intro n; rfl
  | cons p r ih =>
      intro n
      simp [renderProtos, mt_renderProto_triple, ih (n + 1)]

theorem mt_renderProtos_retention (args : Args) (uu : Nat → String) (ps : List Item) : ∀ n,
    (renderProtos args uu n ps).map
        (fun e => (childText e "history", childText e "trends")) =
      ps.map (fun _ => (some (args.history ++ "d"), some (args.trends ++ "d"))) := by
  induction ps with
  | nil => intro n; rfl
  | cons p r ih =>
      intro n
      simp [renderProtos, mt_renderProto_history, mt_renderProto_trends, ih (n + 1)]

theorem mt_renderProtos_tags (args : Args) (uu : Nat → String) (ps : List Item) : ∀ n,
    (renderProtos args uu n ps).filter (fun c => c.tag == "item_prototype") =
      renderProtos args uu n ps := by
  induction ps with
  | nil => intro n; rfl
  | cons p r ih =>
      intro n
      simp [renderProtos, mt_renderProto_tag, ih (n + 1)]

theorem mt_renderRule_key (args : Args) (uu : Nat → String) (n : Nat)
    (rn : String) (ps : List Item) :
    childText (renderRule args uu n rn ps) "key" = some (pyReplace rn "::" ".") := by
  by_cases hps : ps = [] <;>
    simp [renderRule, childText, findChild, XElem.taggedChildren, hps, mkT]

theorem mt_renderRule_protos (args : Args) (uu : Nat → String) (n : Nat)
    (rn : String) (ps : List Item) :
    protosOf (renderRule args uu n rn ps) = renderProtos args uu (n + 1) ps := by
  by_cases hps : ps = []
  · subst hps
    simp [renderRule, protosOf, findChild, XElem.taggedChildren, xnil, mkT, renderProtos]
  · simp [renderRule, protosOf, findChild, XElem.taggedChildren, xnil, hps, mkT,
      mt_renderProtos_tags]

theorem mt_renderRule_tag (args : Args) (uu : Nat → String) (n : Nat)
    (rn : String) (ps : List Item) :
    (renderRule args uu n rn ps).tag = "discovery_rule" := rfl

theorem mt_renderRules_shape (args : Args) (uu : Nat → String)
    (rs : List (String × List Item)) : ∀ n,
    (renderRules args uu n rs).map (fun r => (childText r "key", (protosOf r).map itemTriple)) =
      rs.map (fun e => (some (pyReplace e.1 "::" "."),
        e.2.map (fun p => (p.name ++ ".\x7b#SNMPINDEX\x7d", p.oid ++ ".\x7b#SNMPINDEX\x7d",
          p.oid ++ "[\x7b#SNMPINDEX\x7d]")))) := by
  induction rs with
  | nil => intro n; rfl
  | cons e r ih =>
      intro n
      simp [renderRules, mt_renderRule_key, mt_renderRule_protos, mt_renderProtos_triples,
        ih (n + 1 + e.2.length)]

theorem mt_renderRules_retention (args : Args) (uu : Nat → String)
    (rs : List (String × List Item)) : ∀ n,
    (renderRules args uu n rs).map
        (fun r => (protosOf r).map
          (fun e => (childText e "history", childText e "trends"))) =
      rs.map (fun e => e.2.map
        (fun _ => (some (args.history ++ "d"), some (args.trends ++ "d")))) := by
  induction rs with
  | nil => intro n; rfl
  | cons e r ih =>
      intro n
      simp [renderRules, mt_renderRule_protos, mt_renderProtos_retention, ih (n + 1 + e.2.length)]

theorem mt_renderRules_tags (args : Args) (uu : Nat → String)
    (rs : List (String × List Item)) : ∀ n,
    (renderRules args uu n rs).filter (fun c => c.tag == "discovery_rule") =
      renderRules args uu n rs := by
  induction rs with
  | nil => intro n; rfl
  | cons e r ih =>
      intro n
      simp [renderRules, mt_renderRule_tag, ih (n + 1 + e.2.length)]

theorem mt_templateOf_generate (uu : Nat → String) (args : Args) (items : List Item)
    (rules : List (String × List Item)) :
    templateOf (generate_template uu args items rules) =
      XElem.mk "template" none
        ([mkT "uuid" (uu 0),
          mkT "template" ((match args.template_name with
                           | some s => if s = "" then args.module else s
                           | none => args.module) ++ " SNMP"),
          mkT "name" ((match args.template_name with
                       | some s => if s = "" then args.module else s
                       | none => args.module) ++ " SNMP"),
          mkT "description" ("Template generated from MIB " ++ args.module),
          XElem.mk "groups" none [XElem.mk "group" none [mkT "name" args.group]]] ++
         (if items ≠ [] then [XElem.mk "items" none (renderItems args uu 1 items)] else []) ++
         (if rules ≠ [] then
           [XElem.mk "discovery_rules" none (renderRules args uu (1 + items.length) rules)]
          else [])) := by
  simp [generate_template, templateOf, findChild, XElem.taggedChildren, mkT]

theorem mt_generate_docItems (uu : Nat → String) (args : Args) (items : List Item)
    (rules : List (String × List Item)) :
    docItems (generate_template uu args items rules) = renderItems args uu 1 items := by
  rw [docItems, mt_templateOf_generate]
  by_cases hi : items = []
  · subst hi
    by_cases hr : rules = [] <;>
      simp [findChild, XElem.taggedChildren, xnil, hr, mkT, renderItems]
  · by_cases hr : rules = [] <;>
      simp [findChild, XElem.taggedChildren, xnil, hi, hr, mkT, mt_renderItems_tags]

theorem mt_generate_docRules (uu : Nat → String) (args : Args) (items : List Item)
    (rules : List (String × List Item)) :
    docRules (generate_template uu args items rules) =
      renderRules args uu (1 + items.length) rules := by
  rw [docRules, mt_templateOf_generate]
  by_cases hr : rules = []
  · subst hr
    by_cases hi : items = [] <;>
      simp [findChild, XElem.taggedChildren, xnil, hi, mkT, renderRules]
  · by_cases hi : items = [] <;>
      simp [findChild, XElem.taggedChildren, xnil, hi, hr, mkT, mt_renderRules_tags]

end M2T

namespace M2Z

/-- The accumulated `snmp_oids` string never grows past 500 characters:
a triple is only appended while the total stays under 501. -/
theorem snmpOids_fold_length (ps : List Item) : ∀ acc : String, acc.length ≤ 500 →
    (ps.foldl (fun acc p => if (acc ++ oidAppendOf p).length < 501
                            then acc ++ oidAppendOf p else acc) acc).length ≤ 500 := by
  induction ps with
  | nil => intro acc h; simpa using h
  | cons p r ih =>
      intro acc h
      simp only [List.foldl_cons]
      by_cases hc : (acc ++ oidAppendOf p).length < 501
      · rw [if_pos hc]
        exact ih _ (Nat.lt_succ_iff.mp hc)
      · rw [if_neg hc]
        exact ih _ h

/-- The accumulated `snmp_oids` string is the concatenation of a
subsequence of the triples, in their original order. -/
theorem snmpOids_fold_join (ps : List Item) : ∀ acc : String,
    ∃ kept : List String, kept.Sublist (ps.map oidAppendOf) ∧
      ps.foldl (fun acc p => if (acc ++ oidAppendOf p).length < 501
                             then acc ++ oidAppendOf p else acc) acc = acc ++ joinAll kept := by
  induction ps with
  | nil =>
      intro acc
      exact ⟨[], List.Sublist.refl _, (strAppendEmpty acc).symm⟩
  | cons p r ih =>
      intro acc
      simp only [List.foldl_cons, List.map_cons]
      by_cases hc : (acc ++ oidAppendOf p).length < 501
      · rw [if_pos hc]
        obtain ⟨kept, hs, he⟩ := ih (acc ++ oidAppendOf p)
        refine ⟨oidAppendOf p :: kept, List.Sublist.cons₂ _ hs, ?_⟩
        rw [he, String.append_assoc]
        rfl
      · rw [if_neg hc]
        obtain ⟨kept, hs, he⟩ := ih acc
        exact ⟨kept, List.Sublist.cons _ hs, he⟩

theorem snmpOids_length (ps : List Item) : (snmpOids ps).length ≤ 500 := by
  have h := snmpOids_fold_length ps "" (by simp)
  simpa [snmpOids] using h

theorem snmpOids_join (ps : List Item) :
    ∃ kept : List String, kept.Sublist (ps.map oidAppendOf) ∧ snmpOids ps = joinAll kept := by
  obtain ⟨kept, hs, he⟩ := snmpOids_fold_join ps ""
  refine ⟨kept, hs, ?_⟩
  simpa [snmpOids] using he

/-- A walk line that is non-empty, not the sentinel, and parses into an
OID part and a typed value part is processed by `processEntry` on the
stripped components. -/
theorem processWalkLine_eq (getInfo : String → String × String × String)
    (st : WalkState) (line p0 p1 t v oid value ty : String)
    (hskip : ¬(line = "" ∨ pyIn "NO MORE VARIABLES LEFT" (pyUpper line) = true))
    (hsplit : pySplit1 line "=" = [p0, p1])
    (hoid : pyStrip p0 = oid)
    (htv : pySplit1 (pyStrip p1) ":" = [t, v])
    (hty : pyStrip t = ty) (hval : pyStrip v = value) :
    processWalkLine getInfo st line =
      processEntry st oid value ty (getInfo oid).1 (getInfo oid).2.1 (getInfo oid).2.2 := by
  subst hoid hty hval
  unfold processWalkLine
  rw [if_neg hskip]
  simp only [hsplit, htv]

end M2Z

namespace M2Z

/-- The walk-mode table test as a proposition: at least 9 dot-separated
segments, and the 9th segment, uppercased, ends with `TABLE`. -/
theorem isTableParts_iff (ps : List String) :
    isTableParts ps = true ↔
      (9 ≤ ps.length ∧ pyEndsWith (pyUpper (ps.getD 8 "")) "TABLE" = true) := by
  simp [isTableParts, Bool.and_eq_true, decide_eq_true_eq]

end M2Z

/-! Claim theorems. -/

/-- C1: the Type Mapper fallback.  The unmapped label `FOO` does fall back
to TEXT without being treated as an error, and mapped labels return their
documented categories; but contrary to the claim the code emits NO
diagnostic line for `FOO` (or any other unmapped label that does not
uppercase to `TEXT`), because the guard compares the looked-up value with
the uppercased input instead of testing table membership; a diagnostic is
emitted only for labels uppercasing to `TEXT` itself.  This evaluates the
embedded `get_data_type` at the failing input. -/
theorem c1_unmapped_label_no_diagnostic :
    List.lookup (pyUpper "FOO") M2Z.DATATYPES = none ∧
    M2Z.get_data_type "FOO" = (some "TEXT", []) ∧
    M2Z.get_data_type "STRING" = (some "CHAR", []) ∧
    M2Z.get_data_type "Counter32" = (some "FLOAT", []) ∧
    M2Z.get_data_type "TimeTicks" = (some "FLOAT", []) ∧
    M2Z.get_data_type "TRAP" = (some "LOG", []) ∧
    M2Z.get_data_type "notif" = (some "LOG", []) ∧
    M2Z.get_data_type "text" = (some "TEXT",
      ["Unhandled data type [text] so assigning TEXT"]) := by
  decide

/-- C4: the MIB-mode table/scalar classifier is exactly the disjunctive
substring heuristic: the symbol contains `.1`, or `Table`, or `Entry`, or
the declared syntax contains `Table`; in particular `ifTable` is always a
table member, any symbol containing `.1` is one, and `sysDescr` with its
scalar syntax is not. -/
theorem c4_table_scalar_classifier :
    (∀ symbol syntax0 : String,
      M2T.is_table_symbol symbol syntax0 = true ↔
        ((".1").data <:+: symbol.data ∨ ("Table").data <:+: symbol.data ∨
         ("Entry").data <:+: symbol.data ∨ ("Table").data <:+: syntax0.data)) ∧
    (∀ syntax0 : String, M2T.is_table_symbol "ifTable" syntax0 = true) ∧
    (∀ a b syntax0 : String, M2T.is_table_symbol (a ++ ".1" ++ b) syntax0 = true) ∧
    M2T.is_table_symbol "sysDescr" "OCTET STRING" = false := by
  refine ⟨?_, ?_, ?_, by decide⟩
  · intro s y
    simp [M2T.is_table_symbol, Bool.or_eq_true, pyIn_iff, or_assoc]
  · intro y
    have h : pyIn "Table" "ifTable" = true := by decide
    simp [M2T.is_table_symbol, h]
  · intro a b y
    have h : pyIn ".1" (a ++ ".1" ++ b) = true := by
      refine (pyIn_iff _ _).mpr ?_
      rw [String.data_append, String.data_append]
      exact List.infix_append a.data (".1").data b.data
    simp [M2T.is_table_symbol, h]

/-- C7: the discovery-OID budget.  The accumulated `snmp_oids` string of
`{#MACRO},oid,` triples never exceeds 500 characters; it is the
concatenation of a subsequence of the triples in order of first
accumulation (a triple that would push the total past the budget is
skipped); and the rendered rule carries the `discovery[...]` payload built
from exactly that accumulated string. -/
theorem c7_discovery_oid_budget (ps : List Item) (args : M2Z.Args) (uu : Nat → String)
    (n : Nat) (rn : String) :
    (M2Z.snmpOids ps).length ≤ 500 ∧
    (∃ kept : List String, kept.Sublist (ps.map M2Z.oidAppendOf) ∧
      M2Z.snmpOids ps = joinAll kept) ∧
    childText (M2Z.renderRule args uu n rn ps) "snmp_oid" =
      (if ps ≠ [] ∧ M2Z.snmpOids ps ≠ "" then
        some ("discovery[" ++ dropRight1 (M2Z.snmpOids ps) ++ "]")
       else none) :=
  ⟨M2Z.snmpOids_length ps, M2Z.snmpOids_join ps, M2Z.renderRule_snmp_oid args uu n rn ps⟩

/-- C2: live-walk table detection.  A parsed walk line is processed as a
table column (items untouched) precisely when its formatted OID has at
least 9 dot-separated segments whose 9th segment, case-insensitively,
ends with `TABLE`; in that case the discovery rule touched is the one
named from the 9th segment (`tableNameOf`), every other rule is
unchanged, and a prototype named by the 11th segment is appended exactly
when the OID has more than 10 segments and that segment differs from the
dedup register; otherwise the line yields one standalone item. -/
theorem c2_walk_table_detection (st : M2Z.WalkState)
    (oid value snmp_type mib desc fmt : String) :
    ((M2Z.processEntry st oid value snmp_type mib desc fmt).items = st.items ↔
      (9 ≤ (pySplit fmt ".").length ∧
       pyEndsWith (pyUpper ((pySplit fmt ".").getD 8 "")) "TABLE" = true)) ∧
    (M2Z.isTableParts (pySplit fmt ".") = true →
      (M2Z.processEntry st oid value snmp_type mib desc fmt).template_name =
          st.template_name ∧
      (M2Z.processEntry st oid value snmp_type mib desc fmt).discovery_rules.map Prod.fst =
        (if M2Z.rulesMember st.discovery_rules
              (M2Z.tableNameOf mib (pySplit fmt ".")) = true
         then st.discovery_rules.map Prod.fst
         else st.discovery_rules.map Prod.fst ++ [M2Z.tableNameOf mib (pySplit fmt ".")]) ∧
      (∀ k : String, k ≠ M2Z.tableNameOf mib (pySplit fmt ".") →
        M2Z.rulesGet (M2Z.processEntry st oid value snmp_type mib desc fmt).discovery_rules k =
          M2Z.rulesGet st.discovery_rules k) ∧
      (if 10 < (pySplit fmt ".").length ∧
          (if M2Z.rulesMember st.discovery_rules
                (M2Z.tableNameOf mib (pySplit fmt ".")) = true
           then st.last_part_10 else "") ≠ (pySplit fmt ".").getD 10 "" then
        (∃ p : Item, p.name = (pySplit fmt ".").getD 10 "" ∧
          M2Z.rulesGet (M2Z.processEntry st oid value snmp_type mib desc fmt).discovery_rules
              (M2Z.tableNameOf mib (pySplit fmt ".")) =
            some (((M2Z.rulesGet st.discovery_rules
              (M2Z.tableNameOf mib (pySplit fmt "."))).getD []) ++ [p])) ∧
        (M2Z.processEntry st oid value snmp_type mib desc fmt).last_part_10 =
          (pySplit fmt ".").getD 10 ""
       else
        M2Z.rulesGet (M2Z.processEntry st oid value snmp_type mib desc fmt).discovery_rules
            (M2Z.tableNameOf mib (pySplit fmt ".")) =
          some ((M2Z.rulesGet st.discovery_rules
            (M2Z.tableNameOf mib (pySplit fmt "."))).getD []) ∧
        (M2Z.processEntry st oid value snmp_type mib desc fmt).last_part_10 =
          (if M2Z.rulesMember st.discovery_rules
                (M2Z.tableNameOf mib (pySplit fmt ".")) = true
           then st.last_part_10 else ""))) ∧
    (M2Z.isTableParts (pySplit fmt ".") = false →
      (M2Z.processEntry st oid value snmp_type mib desc fmt).discovery_rules =
          st.discovery_rules ∧
      (M2Z.processEntry st oid value snmp_type mib desc fmt).last_part_10 =
          st.last_part_10 ∧
      (∃ it : Item, (M2Z.processEntry st oid value snmp_type mib desc fmt).items =
          st.items ++ [it] ∧ it.oid = oid ∧ it.mib_name = mib ∧
          it.value_type = (M2Z.get_data_type snmp_type).1 ∧ it.description = desc)) := by
  refine ⟨?_, fun h => ⟨(M2Z.processEntry_table_obs st _ _ _ _ _ _ h).2,
      M2Z.processEntry_table_keys st _ _ _ _ _ _ h,
      fun k hk => M2Z.processEntry_table_other_rules st _ _ _ _ _ _ k h hk,
      M2Z.processEntry_table_dedup st _ _ _ _ _ _ h⟩,
    fun h => ?_⟩
  · by_cases ht : M2Z.isTableParts (pySplit fmt ".") = true
    · exact ⟨fun _ => (M2Z.isTableParts_iff _).mp ht,
        fun _ => (M2Z.processEntry_table_obs st _ _ _ _ _ _ ht).1⟩
    · have hf : M2Z.isTableParts (pySplit fmt ".") = false :=
        Bool.not_eq_true _ ▸ Bool.eq_false_iff.mpr ht
      constructor
      · intro heq
        rw [M2Z.processEntry_not_table st _ _ _ _ _ _ hf] at heq
        exact absurd (congrArg List.length heq) (by simp)
      · intro hp
        exact absurd ((M2Z.isTableParts_iff _).mpr hp) ht
  · rw [M2Z.processEntry_not_table st _ _ _ _ _ _ h]
    refine ⟨rfl, rfl, ⟨_, rfl, rfl, rfl, rfl, rfl⟩⟩

/-- C2 witness: a concrete table-shaped line leaves the item list alone. -/
theorem c2_walk_table_detection_witness :
    (M2Z.processEntry
      { template_name := "SNMP Template", items := [], discovery_rules := [],
        last_part_10 := "" }
      ".1.2.3.1" "1" "INTEGER" "M::colA.1" "" fmtFix).items = [] :=
  (c2_walk_table_detection
    { template_name := "SNMP Template", items := [], discovery_rules := [],
      last_part_10 := "" }
    ".1.2.3.1" "1" "INTEGER" "M::colA.1" "" fmtFix).1.mpr (by decide)

/-- C3 counterexample: the claimed per-(table, row-index) invariant fails.
Walking the three lines below (table `aTable` index 1, table `bTable`
index 2, table `aTable` index 1 again) retains TWO prototypes with the
same trailing row index `1` in the same rule `M::aTable`, because the
dedup register is a single value shared across tables. -/
theorem c3_dedup_counterexample :
    ((M2Z.rulesGet (M2Z.process_walk getInfo3
        [".1.2.3.1 = INTEGER: 1", ".1.2.9.2 = INTEGER: 7", ".1.2.4.1 = INTEGER: 5"]
      ).discovery_rules "M::aTable").getD []).map Item.name = ["1", "1"] := by
  decide

/-- C3 amended: dedup is adjacency-based through one shared register.  A
table column is appended only when its 11th formatted-OID segment differs
from the register, which holds the index of the most recently appended
prototype of ANY table and is reset when a new table is first seen; hence
of two consecutive lines of the same table with the same row-index
segment, processing the second is a complete no-op.  Non-adjacent
duplicates within a rule can survive. -/
theorem c3_adjacent_dedup (st : M2Z.WalkState)
    (oid1 value1 ty1 mib1 desc1 fmt1 oid2 value2 ty2 mib2 desc2 fmt2 : String)
    (h1 : M2Z.isTableParts (pySplit fmt1 ".") = true)
    (h2 : M2Z.isTableParts (pySplit fmt2 ".") = true)
    (hlen1 : 10 < (pySplit fmt1 ".").length)
    (htab : M2Z.tableNameOf mib2 (pySplit fmt2 ".") =
      M2Z.tableNameOf mib1 (pySplit fmt1 "."))
    (hidx : (pySplit fmt2 ".").getD 10 "" = (pySplit fmt1 ".").getD 10 "") :
    M2Z.processEntry (M2Z.processEntry st oid1 value1 ty1 mib1 desc1 fmt1)
        oid2 value2 ty2 mib2 desc2 fmt2 =
      M2Z.processEntry st oid1 value1 ty1 mib1 desc1 fmt1 := by
  apply M2Z.processEntry_table_noop _ _ _ _ _ _ _ h2
  · rw [htab]
    exact M2Z.processEntry_table_member st _ _ _ _ _ _ h1
  · rw [hidx]
    exact M2Z.processEntry_table_last st _ _ _ _ _ _ h1 hlen1

/-- C3 witness: two consecutive lines of table `aTable` with row index
`1`; the second line changes nothing. -/
theorem c3_adjacent_dedup_witness :
    M2Z.processEntry
      (M2Z.processEntry
        { template_name := "SNMP Template", items := [], discovery_rules := [],
          last_part_10 := "" }
        ".1.2.3.1" "1" "INTEGER" "M::colA.1" "" fmtFix)
      ".1.2.4.1" "5" "INTEGER" "M::colC.1" "" fmtFix =
    M2Z.processEntry
      { template_name := "SNMP Template", items := [], discovery_rules := [],
        last_part_10 := "" }
      ".1.2.3.1" "1" "INTEGER" "M::colA.1" "" fmtFix :=
  c3_adjacent_dedup
    { template_name := "SNMP Template", items := [], discovery_rules := [],
      last_part_10 := "" }
    ".1.2.3.1" "1" "INTEGER" "M::colA.1" "" fmtFix
    ".1.2.4.1" "5" "INTEGER" "M::colC.1" "" fmtFix
    (by decide) (by decide) (by decide) (by decide) (by decide)

/-- C5: serialization round-trip for both generators.  The rendered items
collection lists exactly the aggregated items, in order, with matching
name, OID and key; the rendered discovery rules list exactly the
aggregated rules, each carrying its key and all its prototypes nested
beneath it, every prototype name and OID suffixed with the literal
`.{#SNMPINDEX}` token and every prototype key with `[{#SNMPINDEX}]`. -/
theorem c5_serialization_roundtrip (uu uu2 : Nat → String) (args : M2Z.Args)
    (args2 : M2T.Args) (items items2 : List Item)
    (rules rules2 : List (String × List Item)) (tn : String) :
    ((docItems (M2Z.generate_template uu args items rules tn)).map itemTriple =
        items.map (fun it => (it.name, it.oid, it.key)) ∧
      (docRules (M2Z.generate_template uu args items rules tn)).map
          (fun r => (childText r "key", (protosOf r).map itemTriple)) =
        rules.map (fun e => (some (pyReplace e.1 "::" "."),
          e.2.map (fun p => (p.name ++ ".\x7b#SNMPINDEX\x7d",
            p.oid ++ ".\x7b#SNMPINDEX\x7d", p.oid ++ "[\x7b#SNMPINDEX\x7d]"))))) ∧
    ((docItems (M2T.generate_template uu2 args2 items2 rules2)).map itemTriple =
        items2.map (fun it => (it.name, it.oid, it.key)) ∧
      (docRules (M2T.generate_template uu2 args2 items2 rules2)).map
          (fun r => (childText r "key", (protosOf r).map itemTriple)) =
        rules2.map (fun e => (some (pyReplace e.1 "::" "."),
          e.2.map (fun p => (p.name ++ ".\x7b#SNMPINDEX\x7d",
            p.oid ++ ".\x7b#SNMPINDEX\x7d", p.oid ++ "[\x7b#SNMPINDEX\x7d]"))))) := by
  refine ⟨⟨?_, ?_⟩, ?_, ?_⟩
  · rw [M2Z.generate_docItems]
    exact M2Z.renderItems_triples args uu items 1
  · rw [M2Z.generate_docRules]
    exact M2Z.renderRules_shape args uu rules (1 + items.length)
  · rw [M2T.mt_generate_docItems]
    exact M2T.mt_renderItems_triples args2 uu2 items2 1
  · rw [M2T.mt_generate_docRules]
    exact M2T.mt_renderRules_shape args2 uu2 rules2 (1 + items2.length)

/-- C8 counterexample: with the default trends value `365`, mib2zabbix-py
renders an item trends field `365`, not `365d`; the claimed `<N>d`
format fails. -/
theorem c8_trends_counterexample :
    (docItems (M2Z.generate_template uuFix argsFix [c8It] [] "T")).map
        (fun e => childText e "trends") = [some "365"] ∧
    (docItems (M2Z.generate_template uuFix argsFix [c8It] [] "T")).map
        (fun e => childText e "trends") ≠ [some "365d"] := by
  decide

/-- C8 amended: history fields carry the `d` suffix everywhere, and
mib2template.py also suffixes trends for items and prototypes; but
mib2zabbix-py renders the item trends field as the raw day count without
`d`, and its item prototypes carry no trends field at all. -/
theorem c8_retention_format (uu uu2 : Nat → String) (args : M2Z.Args) (args2 : M2T.Args)
    (items items2 : List Item) (rules rules2 : List (String × List Item)) (tn : String) :
    ((docItems (M2Z.generate_template uu args items rules tn)).map
        (fun e => (childText e "history", childText e "trends")) =
      items.map (fun _ => (some (args.history ++ "d"), some args.trends))) ∧
    ((docRules (M2Z.generate_template uu args items rules tn)).map
        (fun r => (protosOf r).map
          (fun e => (childText e "history", (e.taggedChildren "trends").length))) =
      rules.map (fun e => e.2.map (fun _ => (some (args.history ++ "d"), 0)))) ∧
    ((docItems (M2T.generate_template uu2 args2 items2 rules2)).map
        (fun e => (childText e "history", childText e "trends")) =
      items2.map (fun _ => (some (args2.history ++ "d"), some (args2.trends ++ "d")))) ∧
    ((docRules (M2T.generate_template uu2 args2 items2 rules2)).map
        (fun r => (protosOf r).map
          (fun e => (childText e "history", childText e "trends"))) =
      rules2.map (fun e => e.2.map
        (fun _ => (some (args2.history ++ "d"), some (args2.trends ++ "d"))))) := by
  refine ⟨?_, ?_, ?_, ?_⟩
  · rw [M2Z.generate_docItems]
    exact M2Z.renderItems_retention args uu items 1
  · rw [M2Z.generate_docRules]
    exact M2Z.renderRules_retention args uu rules (1 + items.length)
  · rw [M2T.mt_generate_docItems]
    exact M2T.mt_renderItems_retention args2 uu2 items2 1
  · rw [M2T.mt_generate_docRules]
    exact M2T.mt_renderRules_retention args2 uu2 rules2 (1 + items2.length)

/-- C6 counterexample: on the walk line `.1.3.6.1.2.1.1.5.0 = STRING:
"router1"` the generated display name is `"router1" SNMP` — the raw walk
value including its double quotes, followed by ` SNMP` — and NOT the
claimed `router1 SNMP`. -/
theorem c6_sysname_counterexample :
    childText (templateOf (M2Z.walk_output getInfo6 uuFix argsFix
        [".1.3.6.1.2.1.1.5.0 = STRING: \"router1\""])) "name" =
      some "\"router1\" SNMP" ∧
    childText (templateOf (M2Z.walk_output getInfo6 uuFix argsFix
        [".1.3.6.1.2.1.1.5.0 = STRING: \"router1\""])) "name" ≠
      some "router1 SNMP" := by
  decide

/-- C6 amended: for any resolver under which the sysName OID is not
table-shaped, the walk line `.1.3.6.1.2.1.1.5.0 = STRING: "router1"`
sets both the template and name elements to the stripped raw value
(quotes included) followed by ` SNMP`, i.e. `"router1" SNMP`. -/
theorem c6_sysname_template_name (getInfo : String → String × String × String)
    (uu : Nat → String) (args : M2Z.Args)
    (h : M2Z.isTableParts (pySplit (getInfo ".1.3.6.1.2.1.1.5.0").2.2 ".") = false) :
    childText (templateOf (M2Z.walk_output getInfo uu args
        [".1.3.6.1.2.1.1.5.0 = STRING: \"router1\""])) "template" =
      some "\"router1\" SNMP" ∧
    childText (templateOf (M2Z.walk_output getInfo uu args
        [".1.3.6.1.2.1.1.5.0 = STRING: \"router1\""])) "name" =
      some "\"router1\" SNMP" := by
  have hline : M2Z.processWalkLine getInfo
      { template_name := "SNMP Template", items := [], discovery_rules := [],
        last_part_10 := "" }
      ".1.3.6.1.2.1.1.5.0 = STRING: \"router1\"" =
      M2Z.processEntry
        { template_name := "SNMP Template", items := [], discovery_rules := [],
          last_part_10 := "" }
        ".1.3.6.1.2.1.1.5.0" "\"router1\"" "STRING"
        (getInfo ".1.3.6.1.2.1.1.5.0").1 (getInfo ".1.3.6.1.2.1.1.5.0").2.1
        (getInfo ".1.3.6.1.2.1.1.5.0").2.2 :=
    M2Z.processWalkLine_eq getInfo _ _ ".1.3.6.1.2.1.1.5.0 " " STRING: \"router1\""
      "STRING" " \"router1\"" ".1.3.6.1.2.1.1.5.0" "\"router1\"" "STRING"
      (by decide) (by decide) (by decide) (by decide) (by decide) (by decide)
  have hst : M2Z.process_walk getInfo [".1.3.6.1.2.1.1.5.0 = STRING: \"router1\""] =
      M2Z.processEntry
        { template_name := "SNMP Template", items := [], discovery_rules := [],
          last_part_10 := "" }
        ".1.3.6.1.2.1.1.5.0" "\"router1\"" "STRING"
        (getInfo ".1.3.6.1.2.1.1.5.0").1 (getInfo ".1.3.6.1.2.1.1.5.0").2.1
        (getInfo ".1.3.6.1.2.1.1.5.0").2.2 := by
    rw [M2Z.process_walk, List.foldl_cons, List.foldl_nil, hline]
  have htn : (M2Z.process_walk getInfo
      [".1.3.6.1.2.1.1.5.0 = STRING: \"router1\""]).template_name = "\"router1\"" := by
    rw [hst, M2Z.processEntry_not_table _ _ _ _ _ _ _ h]
    simp
  rw [M2Z.walk_output, htn]
  have hts := M2Z.generate_template_title uu args
    (M2Z.process_walk getInfo [".1.3.6.1.2.1.1.5.0 = STRING: \"router1\""]).items
    (M2Z.process_walk getInfo [".1.3.6.1.2.1.1.5.0 = STRING: \"router1\""]).discovery_rules
    "\"router1\""
  rw [hts.1, hts.2]
  exact ⟨by decide, by decide⟩

/-- C6 witness: the hypothesis holds for the fallback resolver, which
formats the sysName OID as itself (9th segment `5`). -/
theorem c6_sysname_template_name_witness :
    childText (templateOf (M2Z.walk_output getInfo6 uuFix argsFix
        [".1.3.6.1.2.1.1.5.0 = STRING: \"router1\""])) "template" =
      some "\"router1\" SNMP" :=
  (c6_sysname_template_name getInfo6 uuFix argsFix (by decide)).1

/-- C9: MIB mode ignores the root OID and all MIB content.  The rendered
document contains exactly the two hard-coded items — sysDescr at
`.1.3.6.1.2.1.1.1.0` with value type CHAR and sysUpTime at
`.1.3.6.1.2.1.1.3.0` with value type FLOAT — no discovery-rules element,
and the output is unchanged under any value of the root OID argument (the
model invokes no resolver in this mode). -/
theorem c9_mib_mode_hardcoded (uu : Nat → String) (args : M2Z.Args) :
    ((docItems (M2Z.process_mib_mode uu args)).map
        (fun e => (itemTriple e, childText e "value_type")) =
      [(("sysDescr", ".1.3.6.1.2.1.1.1.0", "SNMPv2-MIB.sysDescr.0"), some "CHAR"),
       (("sysUpTime", ".1.3.6.1.2.1.1.3.0", "SNMPv2-MIB.sysUpTime.0"), some "FLOAT")]) ∧
    (templateOf (M2Z.process_mib_mode uu args)).taggedChildren "discovery_rules" = [] ∧
    (∀ o : String, M2Z.process_mib_mode uu { args with oid := o } =
      M2Z.process_mib_mode uu args) := by
  refine ⟨?_, ?_, fun o => rfl⟩
  · rw [M2Z.process_mib_mode, M2Z.generate_basic_template, M2Z.generate_docItems]
    simp [M2Z.renderItems, M2Z.renderItem_triple, M2Z.renderItem_value_type, M2Z.basicItems]
  · rw [M2Z.process_mib_mode, M2Z.generate_basic_template]
    exact M2Z.generate_no_rules_elem uu args M2Z.basicItems _

/-- C10: a table-classified line whose formatted OID has at most 10
segments never appends an item prototype, but still creates the (empty)
discovery rule on first sight; serializing a rule with no prototypes
yields neither an `item_prototypes` element nor a discovery `snmp_oid`
key. -/
theorem c10_short_table_line (st : M2Z.WalkState)
    (oid value snmp_type mib desc fmt : String) (args : M2Z.Args)
    (uu : Nat → String) (n : Nat)
    (h : M2Z.isTableParts (pySplit fmt ".") = true)
    (hlen : ¬10 < (pySplit fmt ".").length) :
    (M2Z.processEntry st oid value snmp_type mib desc fmt).items = st.items ∧
    (M2Z.processEntry st oid value snmp_type mib desc fmt).discovery_rules =
      (if M2Z.rulesMember st.discovery_rules
            (M2Z.tableNameOf mib (pySplit fmt ".")) = true
       then st.discovery_rules
       else st.discovery_rules ++ [(M2Z.tableNameOf mib (pySplit fmt "."), [])]) ∧
    (M2Z.renderRule args uu n (M2Z.tableNameOf mib (pySplit fmt ".")) []).taggedChildren
        "item_prototypes" = [] ∧
    (M2Z.renderRule args uu n (M2Z.tableNameOf mib (pySplit fmt ".")) []).taggedChildren
        "snmp_oid" = [] := by
  refine ⟨(M2Z.processEntry_table_obs st _ _ _ _ _ _ h).1, ?_,
    (M2Z.renderRule_empty_no_protos_elem args uu n _).1,
    (M2Z.renderRule_empty_no_protos_elem args uu n _).2⟩
  simp only [M2Z.processEntry, h, if_true]
  cases hm : M2Z.rulesMember st.discovery_rules (M2Z.tableNameOf mib (pySplit fmt ".")) with
  | true =>
      simp only [hm, if_true]
      rw [if_neg (fun hc => hlen hc.1)]
  | false =>
      simp only [hm, Bool.false_eq_true, if_false]
      rw [if_neg (fun hc => hlen hc.1)]

/-- C10 witness: a 10-segment table OID creates rule `M::aTable` with no
prototype. -/
theorem c10_short_table_line_witness :
    (M2Z.processEntry
      { template_name := "SNMP Template", items := [], discovery_rules := [],
        last_part_10 := "" }
      ".1.2.3" "1" "INTEGER" "M::colA.1" "" fmtShort).items = [] ∧
    (M2Z.processEntry
      { template_name := "SNMP Template", items := [], discovery_rules := [],
        last_part_10 := "" }
      ".1.2.3" "1" "INTEGER" "M::colA.1" "" fmtShort).discovery_rules =
      (if M2Z.rulesMember []
            (M2Z.tableNameOf "M::colA.1" (pySplit fmtShort ".")) = true
       then []
       else [] ++ [(M2Z.tableNameOf "M::colA.1" (pySplit fmtShort "."), [])]) ∧
    (M2Z.renderRule argsFix uuFix 0
        (M2Z.tableNameOf "M::colA.1" (pySplit fmtShort ".")) []).taggedChildren
        "item_prototypes" = [] ∧
    (M2Z.renderRule argsFix uuFix 0
        (M2Z.tableNameOf "M::colA.1" (pySplit fmtShort ".")) []).taggedChildren
        "snmp_oid" = [] :=
  c10_short_table_line
    { template_name := "SNMP Template", items := [], discovery_rules := [],
      last_part_10 := "" }
    ".1.2.3" "1" "INTEGER" "M::colA.1" "" fmtShort argsFix uuFix 0
    (by decide) (by decide)
